import Mathlib

/-!
Shallow embedding of `src/sentiment_analyzer.py` (class `SentimentAnalyzer`).

Python floats are modelled as exact rationals (`ℚ`), Python strings as Lean
`String` (a structure over `List Char`), raised exceptions as `Except` values.
`round(x, n)` is modelled by banker's rounding on the exact rational value.
The TextBlob base scorer is an external collaborator and is passed in as a
function `String → Except String (ℚ × ℚ)` returning base polarity and
subjectivity, or failing (a raised scorer exception).
-/

namespace SentimentAnalyzer

/-- Model of the whitespace test used by Python `str.strip()` (ASCII repertoire). -/
def isPyWhitespace (c : Char) : Bool :=
  c = ' ' || c = '\t' || c = '\n' || c = '\x0d' || c = '\x0b' || c = '\x0c'

/-- Model of Python `str.strip()`: drop leading and trailing whitespace. -/
def py_strip (s : String) : String :=
  String.mk (((s.data.dropWhile isPyWhitespace).reverse.dropWhile isPyWhitespace).reverse)

/-- Model of Python `str.lower()` on one character, for the character
repertoire appearing in this program (ASCII plus accented Spanish letters). -/
def lowerChar (c : Char) : Char :=
  if c.isUpper then c.toLower
  else if c = 'Á' then 'á'
  else if c = 'É' then 'é'
  else if c = 'Í' then 'í'
  else if c = 'Ó' then 'ó'
  else if c = 'Ú' then 'ú'
  else if c = 'Ü' then 'ü'
  else if c = 'Ñ' then 'ñ'
  else c

/-- Model of Python `str.lower()`. -/
def py_lower (s : String) : String :=
  String.mk (s.data.map lowerChar)

/-- Test `prefixOf needle hay`: `needle` is a leading segment of `hay`. -/
def prefixOf : List Char → List Char → Bool
  | [], _ => true
  | _ :: _, [] => false
  | a :: as, b :: bs => a == b && prefixOf as bs

/-- Test `substrIn needle hay`: `needle` occurs contiguously inside `hay`
(the semantics of Python's `needle in hay` on strings). -/
def substrIn (needle : List Char) : List Char → Bool
  | [] => needle.isEmpty
  | b :: bs => prefixOf needle (b :: bs) || substrIn needle bs

/-- Python `word in text` for strings. -/
def str_in (word text : String) : Bool :=
  substrIn word.data text.data

/-- Field `self.positive_keywords` from `SentimentAnalyzer.__init__`. -/
def positive_keywords : List String :=
  ["excelente", "fantástico", "increíble", "maravilloso", "perfecto",
   "genial", "bueno", "buena", "amor", "feliz", "alegre", "contento",
   "satisfecho", "encanta", "gusta", "hermoso", "bella", "éxito"]

/-- Field `self.negative_keywords` from `SentimentAnalyzer.__init__`. -/
def negative_keywords : List String :=
  ["terrible", "horrible", "malo", "mala", "pésimo", "odio", "detesto",
   "triste", "enojado", "molesto", "frustrado", "decepcionado", "error",
   "problema", "falla", "defecto", "disgusto", "desagradable"]

/-- Count `sum(1 for word in keywords if word in text_lower)`: the number of
keywords occurring as substrings of `text_lower` (each keyword at most once). -/
def count_matches (keywords : List String) (text_lower : String) : Nat :=
  (keywords.filter (fun w => str_in w text_lower)).length

/-- Model of Python's built-in `abs` on floats. -/
def py_abs (q : ℚ) : ℚ :=
  if q < 0 then -q else q

/-- Method `SentimentAnalyzer._adjust_polarity_with_keywords` (lines 85-112),
with the nested `if` blocks flattened into an equivalent `if`-chain:
the first block returns only when `|p| < 0.1` and the counts differ,
otherwise control falls through to the amplification block. -/
def adjust_polarity_with_keywords (text_lower : String) (original_polarity : ℚ) : ℚ :=
  let positive_count := count_matches positive_keywords text_lower
  let negative_count := count_matches negative_keywords text_lower
  if py_abs original_polarity < 1/10 ∧ negative_count < positive_count then
    3/10 + (positive_count : ℚ) * (1/10)
  else if py_abs original_polarity < 1/10 ∧ positive_count < negative_count then
    -(3/10) - (negative_count : ℚ) * (1/10)
  else if 0 < positive_count ∧ 0 < original_polarity then
    min 1 (original_polarity + (positive_count : ℚ) * (2/10))
  else if 0 < negative_count ∧ original_polarity < 0 then
    max (-1) (original_polarity - (negative_count : ℚ) * (2/10))
  else
    original_polarity

/-- Method `SentimentAnalyzer._classify_sentiment` (lines 146-162). -/
def classify_sentiment (polarity : ℚ) : String :=
  if polarity > 1/20 then "POSITIVO"
  else if polarity < -(1/20) then "NEGATIVO"
  else "NEUTRAL"

/-- Method `SentimentAnalyzer.get_polarity_description` (lines 164-186). -/
def get_polarity_description (polarity : ℚ) : String :=
  let abs_polarity := py_abs polarity
  let sentiment_type := if polarity > 0 then "positivo" else "negativo"
  if abs_polarity ≥ 7/10 then "Muy " ++ sentiment_type
  else if abs_polarity ≥ 3/10 then "Moderadamente " ++ sentiment_type
  else if abs_polarity ≥ 1/20 then "Ligeramente " ++ sentiment_type
  else "Neutral"

/-- Round a rational to the nearest integer, ties to even
(the rounding of Python's `round`). -/
def roundHalfEven (q : ℚ) : ℤ :=
  let f := ⌊q⌋
  let r := q - (f : ℚ)
  if r < 1/2 then f
  else if 1/2 < r then f + 1
  else if f % 2 = 0 then f else f + 1

/-- Model of Python `round(q, n)` on exact rationals. -/
def pyRound (q : ℚ) (n : ℕ) : ℚ :=
  (roundHalfEven (q * (10 : ℚ) ^ n) : ℚ) / (10 : ℚ) ^ n

/-- The two kinds of exception `analyze_text` can raise: its own
`ValueError` for blank input, or a propagated base-scorer exception. -/
inductive AnalyzeError where
  | emptyInput : AnalyzeError
  | scorerError : String → AnalyzeError
deriving Repr, DecidableEq

/-- The result dictionary built by `analyze_text` (the wall-clock
`timestamp` field is not modelled; `line_number` is the key optionally
added by `analyze_file`). -/
structure AnalysisResult where
  text : String
  polarity : ℚ
  subjectivity : ℚ
  sentiment : String
  line_number : Option Nat := none
deriving Repr, DecidableEq

/-- Method `SentimentAnalyzer.analyze_text` (lines 48-83). `scorer` models the
`TextBlob(text).sentiment` collaborator. The Python guard
`not text or not text.strip()` is equivalent to `text.strip() == ""`. -/
def analyze_text (scorer : String → Except String (ℚ × ℚ)) (text : String) :
    Except AnalyzeError AnalysisResult :=
  if py_strip text = "" then
    Except.error AnalyzeError.emptyInput
  else
    match scorer text with
    | Except.error msg => Except.error (AnalyzeError.scorerError msg)
    | Except.ok (polarity, subjectivity) =>
      let adjusted_polarity := adjust_polarity_with_keywords (py_lower text) polarity
      let sentiment_label := classify_sentiment adjusted_polarity
      Except.ok
        { text := py_strip text
          polarity := pyRound adjusted_polarity 3
          subjectivity := pyRound subjectivity 3
          sentiment := sentiment_label
          line_number := none }

/-- Loop body of `SentimentAnalyzer.analyze_file` (lines 129-140):
`line_num` enumerates from 1; blank lines are skipped; each non-blank line
is stripped and analyzed; a per-line failure is skipped and the loop
continues. -/
def analyze_file_go (scorer : String → Except String (ℚ × ℚ)) :
    Nat → List String → List AnalysisResult
  | _, [] => []
  | line_num, line :: rest =>
    if py_strip line = "" then
      analyze_file_go scorer (line_num + 1) rest
    else
      match analyze_text scorer (py_strip line) with
      | Except.ok r =>
        { r with line_number := some line_num } :: analyze_file_go scorer (line_num + 1) rest
      | Except.error _ => analyze_file_go scorer (line_num + 1) rest

/-- Method `SentimentAnalyzer.analyze_file` (lines 114-144), on the sequence of
lines already read from the source (file existence is the caller's model). -/
def analyze_file (scorer : String → Except String (ℚ × ℚ)) (lines : List String) :
    List AnalysisResult :=
  analyze_file_go scorer 1 lines

/-- The summary dictionary of `get_analysis_summary`. -/
structure AnalysisSummary where
  total_texts : Nat
  positive_count : Nat
  negative_count : Nat
  neutral_count : Nat
  positive_percentage : ℚ
  negative_percentage : ℚ
  neutral_percentage : ℚ
  average_polarity : ℚ
  average_subjectivity : ℚ
deriving Repr, DecidableEq

/-- Method `SentimentAnalyzer.get_analysis_summary` (lines 242-273); the empty
dictionary returned for empty input is modelled as `none`. -/
def get_analysis_summary (results : List AnalysisResult) : Option AnalysisSummary :=
  if results = [] then none
  else
    let total := results.length
    let positive := (results.filter (fun r => r.sentiment == "POSITIVO")).length
    let negative := (results.filter (fun r => r.sentiment == "NEGATIVO")).length
    let neutral := (results.filter (fun r => r.sentiment == "NEUTRAL")).length
    some
      { total_texts := total
        positive_count := positive
        negative_count := negative
        neutral_count := neutral
        positive_percentage := pyRound ((positive : ℚ) / (total : ℚ) * 100) 1
        negative_percentage := pyRound ((negative : ℚ) / (total : ℚ) * 100) 1
        neutral_percentage := pyRound ((neutral : ℚ) / (total : ℚ) * 100) 1
        average_polarity := pyRound ((results.map (fun r => r.polarity)).sum / (total : ℚ)) 3
        average_subjectivity := pyRound ((results.map (fun r => r.subjectivity)).sum / (total : ℚ)) 3 }

/-- Modelled from the spec: the 1-indexed positions (starting at `n`) of the
lines that are non-blank after trimming — the `line_number`s the spec says
`score_batch` must attach. -/
def spec_nonblank_positions (n : Nat) : List String → List Nat
  | [] => []
  | line :: rest =>
    if py_strip line = "" then spec_nonblank_positions (n + 1) rest
    else n :: spec_nonblank_positions (n + 1) rest

lemma py_abs_eq (q : ℚ) : py_abs q = |q| := by
  unfold py_abs
  split_ifs with h
  · exact (abs_of_neg h).symm
  · exact (abs_of_nonneg (le_of_not_lt h)).symm

lemma roundHalfEven_of_lt (q : ℚ) (f : ℤ) (h1 : (f : ℚ) ≤ q) (h2 : q - (f : ℚ) < 1/2) :
    roundHalfEven q = f := by
  have hf : ⌊q⌋ = f := by
    rw [Int.floor_eq_iff]
    exact ⟨h1, by linarith⟩
  simp only [roundHalfEven, hf]
  rw [if_pos h2]

lemma roundHalfEven_intCast (z : ℤ) : roundHalfEven ((z : ℤ) : ℚ) = z :=
  roundHalfEven_of_lt _ z (le_refl _) (by norm_num)

lemma count_matches_le (kws : List String) (tl : String) :
    count_matches kws tl ≤ kws.length :=
  List.length_filter_le _ _

/-- C4: the classification function is total and pure: polarity above `0.05`
yields `POSITIVO`, below `-0.05` yields `NEGATIVO`, and everything in between,
including the boundary values `0.05` and `-0.05` themselves, yields `NEUTRAL`. -/
theorem c4_classify_thresholds (p : ℚ) :
    (1/20 < p → classify_sentiment p = "POSITIVO") ∧
    (p < -(1/20) → classify_sentiment p = "NEGATIVO") ∧
    (-(1/20) ≤ p → p ≤ 1/20 → classify_sentiment p = "NEUTRAL") ∧
    classify_sentiment (1/20) = "NEUTRAL" ∧
    classify_sentiment (-(1/20)) = "NEUTRAL" := by
  have hb1 : classify_sentiment (1/20) = "NEUTRAL" := by
    unfold classify_sentiment
    rw [if_neg (by norm_num), if_neg (by norm_num)]
  have hb2 : classify_sentiment (-(1/20)) = "NEUTRAL" := by
    unfold classify_sentiment
    rw [if_neg (by norm_num), if_neg (by norm_num)]
  refine ⟨fun h => ?_, fun h => ?_, fun h1 h2 => ?_, hb1, hb2⟩
  · unfold classify_sentiment
    rw [if_pos h]
  · unfold classify_sentiment
    rw [if_neg (by change ¬(1/20 < p); linarith), if_pos h]
  · unfold classify_sentiment
    rw [if_neg (by change ¬(1/20 < p); linarith), if_neg (by linarith)]

/-- Witness for C4 at concrete polarities. -/
theorem c4_witness :
    classify_sentiment 1 = "POSITIVO" ∧ classify_sentiment (-1) = "NEGATIVO" ∧
    classify_sentiment 0 = "NEUTRAL" :=
  ⟨(c4_classify_thresholds 1).1 (by norm_num),
   (c4_classify_thresholds (-1)).2.1 (by norm_num),
   (c4_classify_thresholds 0).2.2.1 (by norm_num) (by norm_num)⟩

/-- C8: the summary of an empty result list is the empty/absent summary
(the guard returns before any average or percentage is computed, so no
division by zero is performed and nothing is raised). -/
theorem c8_empty_summary : get_analysis_summary [] = none := rfl

/-- C10: at the boundary polarities `0.05` and `-0.05` classification returns
`NEUTRAL` while the intensity description (inclusive at `0.05`) returns
`Ligeramente positivo` / `Ligeramente negativo`, which are not the neutral
description. -/
theorem c10_boundary_descriptions :
    classify_sentiment (1/20) = "NEUTRAL" ∧
    get_polarity_description (1/20) = "Ligeramente positivo" ∧
    classify_sentiment (-(1/20)) = "NEUTRAL" ∧
    get_polarity_description (-(1/20)) = "Ligeramente negativo" ∧
    ("Ligeramente positivo" : String) ≠ "Neutral" ∧
    ("Ligeramente negativo" : String) ≠ "Neutral" := by
  refine ⟨?_, ?_, ?_, ?_, by decide, by decide⟩
  · unfold classify_sentiment
    rw [if_neg (by norm_num), if_neg (by norm_num)]
  · unfold get_polarity_description
    rw [py_abs_eq, abs_of_pos (by norm_num)]
    rw [if_neg (by norm_num), if_neg (by norm_num), if_pos (by norm_num),
        if_pos (by norm_num)]
    decide
  · unfold classify_sentiment
    rw [if_neg (by norm_num), if_neg (by norm_num)]
  · unfold get_polarity_description
    rw [py_abs_eq, abs_of_neg (by norm_num)]
    rw [if_neg (by norm_num), if_neg (by norm_num), if_pos (by norm_num),
        if_neg (by norm_num)]
    decide

/-- C5: `analyze_text` fails with the empty-input error exactly when the text
is empty or whitespace-only after trimming; on non-blank input that error is
never produced (a scorer failure surfaces as a distinct error value). -/
theorem c5_empty_input_error (scorer : String → Except String (ℚ × ℚ)) (text : String) :
    analyze_text scorer text = Except.error AnalyzeError.emptyInput ↔
      py_strip text = "" := by
  unfold analyze_text
  by_cases hb : py_strip text = ""
  · simp [hb]
  · rw [if_neg hb]
    simp only [hb, iff_false]
    intro h
    cases hsc : scorer text with
    | error m =>
      rw [hsc] at h
      simp at h
    | ok pr =>
      obtain ⟨p, s⟩ := pr
      rw [hsc] at h
      simp at h

/-- Witness for C5: a whitespace-only input produces the empty-input error. -/
theorem c5_witness :
    analyze_text (fun _ => Except.ok (0, 0)) "   " = Except.error AnalyzeError.emptyInput :=
  (c5_empty_input_error (fun _ => Except.ok (0, 0)) "   ").mpr (by decide)

/-- C1 counterexample: a text matching eight positive keywords, scored with
base polarity `0`, takes the no-signal branch and yields adjusted (and stored)
polarity `0.3 + 8 × 0.1 = 1.1`, which is outside `[-1, 1]`. -/
theorem c1_counterexample :
    (analyze_text (fun _ => Except.ok (0, 0))
        "excelente fantástico increíble maravilloso perfecto genial bueno amor").toOption.map
      (fun r => r.polarity) = some (11/10) ∧ ¬((11/10 : ℚ) ≤ 1) := by
  constructor
  · have h0 : py_strip "excelente fantástico increíble maravilloso perfecto genial bueno amor" =
        "excelente fantástico increíble maravilloso perfecto genial bueno amor" := by decide
    have hne :
        ("excelente fantástico increíble maravilloso perfecto genial bueno amor" : String) ≠ "" := by
      decide
    have hl : py_lower "excelente fantástico increíble maravilloso perfecto genial bueno amor" =
        "excelente fantástico increíble maravilloso perfecto genial bueno amor" := by decide
    have hp : count_matches positive_keywords
        "excelente fantástico increíble maravilloso perfecto genial bueno amor" = 8 := by decide
    have hn : count_matches negative_keywords
        "excelente fantástico increíble maravilloso perfecto genial bueno amor" = 0 := by decide
    have hadj : adjust_polarity_with_keywords
        "excelente fantástico increíble maravilloso perfecto genial bueno amor" 0 = 11/10 := by
      simp only [adjust_polarity_with_keywords, hp, hn]
      norm_num [py_abs]
    have hround : pyRound (11/10) 3 = 11/10 := by
      simp only [pyRound]
      rw [show (11/10 : ℚ) * (10:ℚ)^3 = ((1100 : ℤ) : ℚ) by norm_num, roundHalfEven_intCast]
      norm_num
    simp only [analyze_text, h0, if_neg hne, hl, hadj, hround]
    simp [Except.toOption]
  · norm_num

/-- C1 amended: the amplification branches and the fall-through keep the
adjusted polarity in `[-1, 1]` (for base polarity in `[-1, 1]`), but the
no-signal branch with a keyword-count majority is not clamped; since at most
18 keywords of each list can match, the adjusted polarity always lies in
`[-2.1, 2.1]`, and it lies in `[-1, 1]` whenever that unclamped branch is not
taken (base magnitude at least `0.1`, or tied keyword counts). -/
theorem c1_adjusted_polarity_bounds (text_lower : String) (p : ℚ)
    (h1 : -1 ≤ p) (h2 : p ≤ 1) :
    -(21/10) ≤ adjust_polarity_with_keywords text_lower p ∧
    adjust_polarity_with_keywords text_lower p ≤ 21/10 ∧
    ((|p| < 1/10 → count_matches positive_keywords text_lower =
        count_matches negative_keywords text_lower) →
      -1 ≤ adjust_polarity_with_keywords text_lower p ∧
      adjust_polarity_with_keywords text_lower p ≤ 1) := by
  have hpc : (count_matches positive_keywords text_lower : ℚ) ≤ 18 := by
    have h := count_matches_le positive_keywords text_lower
    have h18 : positive_keywords.length = 18 := rfl
    exact_mod_cast h18 ▸ h
  have hnc : (count_matches negative_keywords text_lower : ℚ) ≤ 18 := by
    have h := count_matches_le negative_keywords text_lower
    have h18 : negative_keywords.length = 18 := rfl
    exact_mod_cast h18 ▸ h
  have hpc0 : (0 : ℚ) ≤ (count_matches positive_keywords text_lower : ℚ) :=
    Nat.cast_nonneg _
  have hnc0 : (0 : ℚ) ≤ (count_matches negative_keywords text_lower : ℚ) :=
    Nat.cast_nonneg _
  simp only [adjust_polarity_with_keywords, py_abs_eq]
  split_ifs with hA hB hC hD
  · exact ⟨by linarith, by linarith,
      fun hc => absurd (hc hA.1) (by have := hA.2; omega)⟩
  · exact ⟨by linarith, by linarith,
      fun hc => absurd (hc hB.1) (by have := hB.2; omega)⟩
  · have hub : min 1 (p + (count_matches positive_keywords text_lower : ℚ) * (2/10)) ≤ 1 :=
      min_le_left _ _
    have hlb : -1 ≤ min 1 (p + (count_matches positive_keywords text_lower : ℚ) * (2/10)) :=
      le_min (by norm_num) (by linarith)
    exact ⟨by linarith, by linarith, fun _ => ⟨hlb, hub⟩⟩
  · have hlb : -1 ≤ max (-1) (p - (count_matches negative_keywords text_lower : ℚ) * (2/10)) :=
      le_max_left _ _
    have hub : max (-1) (p - (count_matches negative_keywords text_lower : ℚ) * (2/10)) ≤ 1 :=
      max_le (by norm_num) (by linarith)
    exact ⟨by linarith, by linarith, fun _ => ⟨hlb, hub⟩⟩
  · exact ⟨by linarith, by linarith, fun _ => ⟨h1, h2⟩⟩

/-- Witness for C1 amended at a keyword-free text and base polarity `0`. -/
theorem c1_witness :
    -(21/10) ≤ adjust_polarity_with_keywords "hola" 0 ∧
    adjust_polarity_with_keywords "hola" 0 ≤ 21/10 ∧
    (-1 ≤ adjust_polarity_with_keywords "hola" 0 ∧
      adjust_polarity_with_keywords "hola" 0 ≤ 1) := by
  have h := c1_adjusted_polarity_bounds "hola" 0 (by norm_num) (by norm_num)
  exact ⟨h.1, h.2.1, h.2.2 (fun _ => by decide)⟩

/-- C2 counterexample: for `"bueno malo"` the keyword counts are tied (one
positive, one negative) and the base polarity `0.05` has magnitude below
`0.1`, yet the adjustment does not leave it unchanged: control falls through
to the amplification branch, which returns `min 1 (0.05 + 0.2) = 0.25`. -/
theorem c2_counterexample :
    |(1/20 : ℚ)| < 1/10 ∧
    count_matches positive_keywords "bueno malo" =
      count_matches negative_keywords "bueno malo" ∧
    adjust_polarity_with_keywords "bueno malo" (1/20) = 1/4 ∧
    (1/4 : ℚ) ≠ 1/20 := by
  refine ⟨by rw [abs_of_pos (by norm_num)]; norm_num, by decide, ?_, by norm_num⟩
  have hp : count_matches positive_keywords "bueno malo" = 1 := by decide
  have hn : count_matches negative_keywords "bueno malo" = 1 := by decide
  simp only [adjust_polarity_with_keywords, hp, hn]
  norm_num [py_abs, min_def]

/-- C2 amended: with base magnitude below `0.1` and tied keyword counts, the
adjustment falls through to the amplification rules, so the base polarity is
returned unchanged provided additionally no keyword matched or the base
polarity is `0`. -/
theorem c2_adjust_tied_counts (text_lower : String) (p : ℚ)
    (h1 : |p| < 1/10)
    (h2 : count_matches positive_keywords text_lower =
      count_matches negative_keywords text_lower)
    (h3 : count_matches positive_keywords text_lower = 0 ∨ p = 0) :
    adjust_polarity_with_keywords text_lower p = p := by
  simp only [adjust_polarity_with_keywords, py_abs_eq]
  split_ifs with hA hB hC hD
  · exact absurd hA.2 (by omega)
  · exact absurd hB.2 (by omega)
  · rcases h3 with h3 | h3
    · exact absurd hC.1 (by omega)
    · exact absurd hC.2 (by rw [h3]; exact lt_irrefl 0)
  · rcases h3 with h3 | h3
    · exact absurd hD.1 (by omega)
    · exact absurd hD.2 (by rw [h3]; exact lt_irrefl 0)
  · rfl

/-- Witness for C2 amended at a keyword-free text and base polarity `0.05`. -/
theorem c2_witness : adjust_polarity_with_keywords "hola" (1/20) = 1/20 :=
  c2_adjust_tied_counts "hola" (1/20)
    (by rw [abs_of_pos (by norm_num)]; norm_num) (by decide) (Or.inl (by decide))

/-- C3 counterexample: with base polarity `0.0504` on a keyword-free text,
`analyze_text` stores sentiment `POSITIVO` (classified from the unrounded
adjusted polarity `0.0504 > 0.05`) but stores polarity rounded to `0.05`,
which classifies as `NEUTRAL`: the stored sentiment is not the
classification of the stored 3-decimal polarity. -/
theorem c3_counterexample :
    analyze_text (fun _ => Except.ok (63/1250, 0)) "hola" =
      Except.ok { text := "hola", polarity := 1/20, subjectivity := 0,
                  sentiment := "POSITIVO", line_number := none } ∧
    classify_sentiment (1/20) = "NEUTRAL" ∧ ("POSITIVO" : String) ≠ "NEUTRAL" := by
  have hcl2 : classify_sentiment ((1 : ℚ)/20) = "NEUTRAL" := by
    unfold classify_sentiment
    rw [if_neg (by norm_num), if_neg (by norm_num)]
  refine ⟨?_, hcl2, by decide⟩
  have h0 : py_strip "hola" = "hola" := by decide
  have hne : ("hola" : String) ≠ "" := by decide
  have hl : py_lower "hola" = "hola" := by decide
  have hp : count_matches positive_keywords "hola" = 0 := by decide
  have hn : count_matches negative_keywords "hola" = 0 := by decide
  have hadj : adjust_polarity_with_keywords "hola" (63/1250) = 63/1250 := by
    simp only [adjust_polarity_with_keywords, hp, hn]
    norm_num [py_abs]
  have hround : pyRound (63/1250) 3 = 1/20 := by
    simp only [pyRound]
    rw [show (63/1250 : ℚ) * (10:ℚ)^3 = 252/5 by norm_num,
        roundHalfEven_of_lt (252/5) 50 (by norm_num) (by norm_num)]
    norm_num
  have hr0 : pyRound (0 : ℚ) 3 = 0 := by
    simp only [pyRound]
    rw [show ((0 : ℚ)) * (10:ℚ)^3 = ((0 : ℤ) : ℚ) by norm_num, roundHalfEven_intCast]
    norm_num
  have hcl : classify_sentiment ((63 : ℚ)/1250) = "POSITIVO" := by
    unfold classify_sentiment
    rw [if_pos (by norm_num)]
  simp only [analyze_text, h0, if_neg hne, hl, hadj, hround, hr0, hcl]

/-- C3 amended: the stored sentiment is the classification of the unrounded
adjusted polarity, and the stored polarity is that value rounded to 3
decimals; classifying the stored polarity recovers the stored sentiment
whenever rounding leaves the adjusted polarity unchanged (it can differ when
rounding moves the value across the `±0.05` threshold). -/
theorem c3_sentiment_pure_function (text : String) (p s : ℚ) (r : AnalysisResult)
    (h : analyze_text (fun _ => Except.ok (p, s)) text = Except.ok r) :
    r.sentiment = classify_sentiment (adjust_polarity_with_keywords (py_lower text) p) ∧
    r.polarity = pyRound (adjust_polarity_with_keywords (py_lower text) p) 3 ∧
    (pyRound (adjust_polarity_with_keywords (py_lower text) p) 3 =
        adjust_polarity_with_keywords (py_lower text) p →
      classify_sentiment r.polarity = r.sentiment) := by
  unfold analyze_text at h
  by_cases hb : py_strip text = ""
  · rw [if_pos hb] at h
    exact Except.noConfusion h
  · rw [if_neg hb] at h
    simp only [Except.ok.injEq] at h
    subst h
    refine ⟨rfl, rfl, fun he => ?_⟩
    show classify_sentiment (pyRound (adjust_polarity_with_keywords (py_lower text) p) 3) = _
    rw [he]

/-- Witness for C3 amended on a concrete non-blank text and base score. -/
theorem c3_witness :
    AnalysisResult.sentiment
        { text := "hola", polarity := 1/2, subjectivity := 0,
          sentiment := "POSITIVO", line_number := none } =
      classify_sentiment (adjust_polarity_with_keywords (py_lower "hola") (1/2)) ∧
    AnalysisResult.polarity
        { text := "hola", polarity := 1/2, subjectivity := 0,
          sentiment := "POSITIVO", line_number := none } =
      pyRound (adjust_polarity_with_keywords (py_lower "hola") (1/2)) 3 ∧
    (pyRound (adjust_polarity_with_keywords (py_lower "hola") (1/2)) 3 =
        adjust_polarity_with_keywords (py_lower "hola") (1/2) →
      classify_sentiment (AnalysisResult.polarity
          { text := "hola", polarity := 1/2, subjectivity := 0,
            sentiment := "POSITIVO", line_number := none }) =
        AnalysisResult.sentiment
          { text := "hola", polarity := 1/2, subjectivity := 0,
            sentiment := "POSITIVO", line_number := none }) := by
  have h0 : py_strip "hola" = "hola" := by decide
  have hne : ("hola" : String) ≠ "" := by decide
  have hl : py_lower "hola" = "hola" := by decide
  have hp : count_matches positive_keywords "hola" = 0 := by decide
  have hn : count_matches negative_keywords "hola" = 0 := by decide
  have hadj : adjust_polarity_with_keywords "hola" (1/2) = 1/2 := by
    simp only [adjust_polarity_with_keywords, hp, hn]
    norm_num [py_abs]
  have hr2 : pyRound ((1 : ℚ)/2) 3 = 1/2 := by
    simp only [pyRound]
    rw [show ((1 : ℚ)/2) * (10:ℚ)^3 = ((500 : ℤ) : ℚ) by norm_num, roundHalfEven_intCast]
    norm_num
  have hr0 : pyRound (0 : ℚ) 3 = 0 := by
    simp only [pyRound]
    rw [show ((0 : ℚ)) * (10:ℚ)^3 = ((0 : ℤ) : ℚ) by norm_num, roundHalfEven_intCast]
    norm_num
  have hcl : classify_sentiment ((1 : ℚ)/2) = "POSITIVO" := by
    unfold classify_sentiment
    rw [if_pos (by norm_num)]
  have h : analyze_text (fun _ => Except.ok ((1 : ℚ)/2, (0 : ℚ))) "hola" =
      Except.ok { text := "hola", polarity := 1/2, subjectivity := 0,
                  sentiment := "POSITIVO", line_number := none } := by
    simp only [analyze_text, h0, if_neg hne, hl, hadj, hr2, hr0, hcl]
  exact c3_sentiment_pure_function "hola" (1/2) 0 _ h

lemma mem_dropWhile_of_mem {p : Char → Bool} {x : Char} (hx : p x = false) :
    ∀ l : List Char, x ∈ l → x ∈ l.dropWhile p
  | [], h => absurd h (List.not_mem_nil x)
  | a :: t, h => by
    rw [List.dropWhile_cons]
    split_ifs with ha
    · rcases List.mem_cons.mp h with rfl | h2
      · exact absurd ha (by simp [hx])
      · exact mem_dropWhile_of_mem hx t h2
    · exact h

lemma mem_py_strip {x : Char} {s : String} (hx : isPyWhitespace x = false)
    (h : x ∈ s.data) : x ∈ (py_strip s).data := by
  show x ∈ ((s.data.dropWhile isPyWhitespace).reverse.dropWhile isPyWhitespace).reverse
  rw [List.mem_reverse]
  exact mem_dropWhile_of_mem hx _ (List.mem_reverse.mpr (mem_dropWhile_of_mem hx _ h))

lemma py_strip_ne_empty_data {s : String} (h : py_strip s ≠ "") :
    ∃ x ∈ s.data, isPyWhitespace x = false := by
  by_contra hc
  push_neg at hc
  apply h
  unfold py_strip
  have h1 : s.data.dropWhile isPyWhitespace = [] := by
    rw [List.dropWhile_eq_nil_iff]
    intro x hx
    simpa using hc x hx
  rw [h1]
  rfl

lemma py_strip_py_strip_ne {s : String} (h : py_strip s ≠ "") :
    py_strip (py_strip s) ≠ "" := by
  obtain ⟨x, hm, hw⟩ := py_strip_ne_empty_data h
  intro he
  have hx3 : x ∈ (py_strip (py_strip s)).data := mem_py_strip hw (mem_py_strip hw hm)
  rw [he] at hx3
  exact absurd hx3 (List.not_mem_nil x)

lemma analyze_text_isOk (scorer : String → Except String (ℚ × ℚ)) (t : String)
    (hne : py_strip t ≠ "") (hsc : ∃ p s, scorer (py_strip t) = Except.ok (p, s)) :
    ∃ r, analyze_text scorer (py_strip t) = Except.ok r := by
  obtain ⟨p, s, hsc⟩ := hsc
  unfold analyze_text
  rw [if_neg (py_strip_py_strip_ne hne), hsc]
  exact ⟨_, rfl⟩

lemma analyze_file_go_line_numbers (scorer : String → Except String (ℚ × ℚ)) :
    ∀ (lines : List String) (n : Nat),
      (∀ l ∈ lines, py_strip l ≠ "" → ∃ p s, scorer (py_strip l) = Except.ok (p, s)) →
      (analyze_file_go scorer n lines).map (fun r => r.line_number) =
        (spec_nonblank_positions n lines).map some
  | [], _, _ => rfl
  | line :: rest, n, h => by
    have hrest := fun l hl => h l (List.mem_cons_of_mem _ hl)
    by_cases hb : py_strip line = ""
    · simp only [analyze_file_go, spec_nonblank_positions, if_pos hb]
      exact analyze_file_go_line_numbers scorer rest (n+1) hrest
    · obtain ⟨r, hr⟩ := analyze_text_isOk scorer line hb (h line (List.mem_cons_self _ _) hb)
      simp only [analyze_file_go, spec_nonblank_positions, if_neg hb, hr, List.map_cons]
      rw [analyze_file_go_line_numbers scorer rest (n+1) hrest]

lemma spec_nonblank_positions_length :
    ∀ (lines : List String) (n : Nat),
      (spec_nonblank_positions n lines).length =
        lines.length - (lines.filter (fun l => py_strip l == "")).length
  | [], _ => rfl
  | line :: rest, n => by
    have hle := List.length_filter_le (fun l => py_strip l == "") rest
    by_cases hb : py_strip line = ""
    · simp only [spec_nonblank_positions, if_pos hb, List.filter_cons]
      rw [if_pos (by simp [hb])]
      simp only [List.length_cons]
      rw [spec_nonblank_positions_length rest (n+1)]
      omega
    · simp only [spec_nonblank_positions, if_neg hb, List.filter_cons]
      rw [if_neg (by simp [hb])]
      simp only [List.length_cons]
      rw [spec_nonblank_positions_length rest (n+1)]
      omega

/-- C6: when per-line scoring succeeds on every non-blank line, the batch
returns one result per non-blank line, in input order, carrying that line's
original 1-indexed position (blank lines are counted by the numbering but
produce no result), and the number of results is `N - K` for `N` input lines
of which `K` are blank after trimming. -/
theorem c6_batch_line_numbers (scorer : String → Except String (ℚ × ℚ)) (lines : List String)
    (h : ∀ l ∈ lines, py_strip l ≠ "" → ∃ p s, scorer (py_strip l) = Except.ok (p, s)) :
    (analyze_file scorer lines).map (fun r => r.line_number) =
      (spec_nonblank_positions 1 lines).map some ∧
    (analyze_file scorer lines).length =
      lines.length - (lines.filter (fun l => py_strip l == "")).length := by
  unfold analyze_file
  have h1 := analyze_file_go_line_numbers scorer lines 1 h
  refine ⟨h1, ?_⟩
  have h2 := congrArg List.length h1
  simp only [List.length_map] at h2
  rw [h2, spec_nonblank_positions_length]

/-- Witness for C6 on a concrete three-line input with one blank line. -/
theorem c6_witness :
    (analyze_file (fun _ => Except.ok (0, 0)) ["bueno", "", " malo "]).map
      (fun r => r.line_number) =
      (spec_nonblank_positions 1 ["bueno", "", " malo "]).map some ∧
    (analyze_file (fun _ => Except.ok (0, 0)) ["bueno", "", " malo "]).length =
      (["bueno", "", " malo "] : List String).length -
        ((["bueno", "", " malo "] : List String).filter (fun l => py_strip l == "")).length :=
  c6_batch_line_numbers (fun _ => Except.ok (0, 0)) ["bueno", "", " malo "]
    (fun _ _ _ => ⟨0, 0, rfl⟩)

lemma analyze_file_go_error_blank (scorer : String → Except String (ℚ × ℚ)) :
    ∀ (lines : List String) (n : Nat),
      analyze_file_go scorer n lines =
        analyze_file_go scorer n (lines.map (fun l =>
          match scorer (py_strip l) with
          | Except.ok _ => l
          | Except.error _ => ""))
  | [], _ => rfl
  | line :: rest, n => by
    cases hsc : scorer (py_strip line) with
    | ok pr =>
      simp only [List.map_cons, hsc]
      by_cases hb : py_strip line = ""
      · simp only [analyze_file_go, if_pos hb]
        exact analyze_file_go_error_blank scorer rest (n+1)
      · simp only [analyze_file_go, if_neg hb]
        cases hat : analyze_text scorer (py_strip line) with
        | ok r =>
          simp only [hat]
          exact congrArg _ (analyze_file_go_error_blank scorer rest (n+1))
        | error e =>
          simp only [hat]
          exact analyze_file_go_error_blank scorer rest (n+1)
    | error m =>
      simp only [List.map_cons, hsc]
      by_cases hb : py_strip line = ""
      · simp only [analyze_file_go, if_pos hb, if_pos (show py_strip "" = "" from rfl)]
        exact analyze_file_go_error_blank scorer rest (n+1)
      · have hat : analyze_text scorer (py_strip line) =
            Except.error (AnalyzeError.scorerError m) := by
          unfold analyze_text
          rw [if_neg (py_strip_py_strip_ne hb), hsc]
        simp only [analyze_file_go, if_neg hb, hat,
          if_pos (show py_strip "" = "" from rfl)]
        exact analyze_file_go_error_blank scorer rest (n+1)

/-- C7: a per-line scoring failure never aborts the batch: running the batch
is exactly running it with every failing non-blank line replaced by a blank
(skipped) line, so all other lines still yield their results and keep their
original line numbers. -/
theorem c7_batch_partial_failure (scorer : String → Except String (ℚ × ℚ))
    (lines : List String) :
    analyze_file scorer lines =
      analyze_file scorer (lines.map (fun l =>
        match scorer (py_strip l) with
        | Except.ok _ => l
        | Except.error _ => "")) := by
  unfold analyze_file
  exact analyze_file_go_error_blank scorer lines 1

lemma roundHalfEven_sub_abs_le (q : ℚ) : |(roundHalfEven q : ℚ) - q| ≤ 1/2 := by
  have h0 : (⌊q⌋ : ℚ) ≤ q := Int.floor_le q
  have h1 : q < (⌊q⌋ : ℚ) + 1 := Int.lt_floor_add_one q
  simp only [roundHalfEven]
  split_ifs with a b c
  · rw [abs_le]
    constructor <;> linarith
  · rw [abs_le]
    push_cast
    constructor <;> linarith
  · push_neg at a b
    rw [abs_le]
    constructor <;> linarith
  · push_neg at a b
    rw [abs_le]
    push_cast
    constructor <;> linarith

lemma filter_sentiment_three_sum :
    ∀ results : List AnalysisResult,
      (∀ r ∈ results, r.sentiment = "POSITIVO" ∨ r.sentiment = "NEGATIVO" ∨
        r.sentiment = "NEUTRAL") →
      (results.filter (fun r => r.sentiment == "POSITIVO")).length +
      (results.filter (fun r => r.sentiment == "NEGATIVO")).length +
      (results.filter (fun r => r.sentiment == "NEUTRAL")).length = results.length
  | [], _ => rfl
  | r :: rest, h => by
    have hrest := filter_sentiment_three_sum rest (fun x hx => h x (List.mem_cons_of_mem _ hx))
    have e1 : (("POSITIVO" : String) == "NEGATIVO") = false := by decide
    have e2 : (("POSITIVO" : String) == "NEUTRAL") = false := by decide
    have e3 : (("NEGATIVO" : String) == "POSITIVO") = false := by decide
    have e4 : (("NEGATIVO" : String) == "NEUTRAL") = false := by decide
    have e5 : (("NEUTRAL" : String) == "POSITIVO") = false := by decide
    have e6 : (("NEUTRAL" : String) == "NEGATIVO") = false := by decide
    rcases h r (List.mem_cons_self _ _) with h1 | h1 | h1 <;>
      simp [List.filter_cons, h1, e1, e2, e3, e4, e5, e6] <;> omega

lemma pyRound1_sum_bound (p n m t : ℕ) (hpos : 0 < t) (hsum : p + n + m = t) :
    |pyRound ((p : ℚ) / (t : ℚ) * 100) 1 + pyRound ((n : ℚ) / (t : ℚ) * 100) 1 +
      pyRound ((m : ℚ) / (t : ℚ) * 100) 1 - 100| ≤ 1/10 := by
  have htQ : (t : ℚ) ≠ 0 := Nat.cast_ne_zero.mpr (Nat.pos_iff_ne_zero.mp hpos)
  simp only [pyRound, pow_one]
  set x := (p : ℚ) / (t : ℚ) * 100 * 10 with hxdef
  set y := (n : ℚ) / (t : ℚ) * 100 * 10 with hydef
  set z := (m : ℚ) / (t : ℚ) * 100 * 10 with hzdef
  set A := roundHalfEven x with hAdef
  set B := roundHalfEven y with hBdef
  set C := roundHalfEven z with hCdef
  have hxyz : x + y + z = 1000 := by
    rw [hxdef, hydef, hzdef]
    have hc : (p : ℚ) + (n : ℚ) + (m : ℚ) = (t : ℚ) := by exact_mod_cast hsum
    have e : (p : ℚ)/(t : ℚ)*100*10 + (n : ℚ)/(t : ℚ)*100*10 + (m : ℚ)/(t : ℚ)*100*10 =
        ((p : ℚ) + (n : ℚ) + (m : ℚ))/(t : ℚ)*1000 := by ring
    rw [e, hc, div_self htQ]
    norm_num
  have hA := roundHalfEven_sub_abs_le x
  have hB := roundHalfEven_sub_abs_le y
  have hC := roundHalfEven_sub_abs_le z
  rw [← hAdef] at hA
  rw [← hBdef] at hB
  rw [← hCdef] at hC
  have key : |((A + B + C - 1000 : ℤ) : ℚ)| ≤ 3/2 := by
    push_cast
    have e : (A : ℚ) + (B : ℚ) + (C : ℚ) - 1000 =
        ((A : ℚ) - x) + ((B : ℚ) - y) + ((C : ℚ) - z) := by
      rw [← hxyz]
      ring
    rw [e]
    calc |((A : ℚ) - x) + ((B : ℚ) - y) + ((C : ℚ) - z)|
        ≤ |((A : ℚ) - x) + ((B : ℚ) - y)| + |(C : ℚ) - z| := abs_add _ _
      _ ≤ |(A : ℚ) - x| + |(B : ℚ) - y| + |(C : ℚ) - z| := by
          have := abs_add ((A : ℚ) - x) ((B : ℚ) - y)
          linarith
      _ ≤ 3/2 := by linarith
  have hint : |A + B + C - 1000| ≤ 1 := by
    by_contra hcon
    push_neg at hcon
    have h2 : (2 : ℤ) ≤ |A + B + C - 1000| := by linarith
    have h2Q : (2 : ℚ) ≤ |((A + B + C - 1000 : ℤ) : ℚ)| := by
      rw [← Int.cast_abs]
      exact_mod_cast h2
    linarith
  have e2 : ((A : ℚ))/10 + ((B : ℚ))/10 + ((C : ℚ))/10 - 100 =
      ((A + B + C - 1000 : ℤ) : ℚ)/10 := by
    push_cast
    ring
  rw [e2, abs_div, abs_of_pos (by norm_num : (0 : ℚ) < 10)]
  have hfin : |((A + B + C - 1000 : ℤ) : ℚ)| ≤ 1 := by
    rw [← Int.cast_abs]
    exact_mod_cast hint
  linarith

/-- C9: for a non-empty result list whose sentiment labels are among the
three fixed labels, the three summary percentages (each rounded to one
decimal) sum to `100` within `0.1`. -/
theorem c9_percentages_sum (results : List AnalysisResult) (hne : results ≠ [])
    (h : ∀ r ∈ results, r.sentiment = "POSITIVO" ∨ r.sentiment = "NEGATIVO" ∨
      r.sentiment = "NEUTRAL") :
    ∃ s, get_analysis_summary results = some s ∧
      |s.positive_percentage + s.negative_percentage + s.neutral_percentage - 100| ≤
        1/10 := by
  have hpos : 0 < results.length := List.length_pos.mpr hne
  have hsum := filter_sentiment_three_sum results h
  unfold get_analysis_summary
  rw [if_neg hne]
  exact ⟨_, rfl, pyRound1_sum_bound _ _ _ _ hpos hsum⟩

/-- Witness for C9 on a singleton result list. -/
theorem c9_witness :
    ∃ s, get_analysis_summary
        [{ text := "hola", polarity := 1/2, subjectivity := 0,
           sentiment := "POSITIVO", line_number := none }] = some s ∧
      |s.positive_percentage + s.negative_percentage + s.neutral_percentage - 100| ≤
        1/10 :=
  c9_percentages_sum _ (List.cons_ne_nil _ _)
    (by
      intro r hr
      rw [List.mem_singleton] at hr
      rw [hr]
      left
      rfl)

end SentimentAnalyzer
